import Mathlib

/-!
Verification of the wave.ai fallback audio synthesis engine
(`packages/agent/src/tools/audioSynthesis.ts`) and of the waveform peak
extractor (`createWaveform`).

Modelling conventions: JavaScript numbers are modelled as real numbers
(rationals where the source only does exact arithmetic), `Buffer` contents
as `List ℕ` of byte values, and the ambient `Math.random()` entropy as an
oracle `ℕ → ℕ → ℝ` giving the value read at a given sample index and call
site (0 = snare noise, 1 = hi-hat noise).  Node's `writeUInt32LE` /
`writeUInt16LE` range-check their argument and throw `ERR_OUT_OF_RANGE`
for values that do not fit; this error path is modelled by Option-valued
writes (`writeUInt32LE?`, `createWAVHeader?`, `renderWav?`), while the
pure `le32` / `le16` give the little-endian bytes stored for in-range
values.  `writeInt16LE` stores the two's-complement bit pattern of its
(range-checked) argument; its check never fires because every emitted
sample integer is proved to lie in `[-32768, 32767]`.  A JavaScript
out-of-bounds array read (reachable only when `tempo < 0` makes a bar
index negative) is modelled as the value 0.
-/

namespace WaveAI

open Real

/-- Truncation toward zero, the rounding JavaScript uses for `%`. -/
noncomputable def jsTrunc (x : ℝ) : ℤ := if 0 ≤ x then ⌊x⌋ else ⌈x⌉

/-- The JavaScript `%` operator on numbers (fmod, sign of the dividend). -/
noncomputable def jsMod (x y : ℝ) : ℝ := x - y * (jsTrunc (x / y) : ℝ)

/-- The two little-endian bytes stored by `writeUInt16LE` for an in-range
value (the range check itself is `writeUInt16LE?`). -/
def le16 (n : ℕ) : List ℕ := [n % 256, n / 256 % 256]

/-- The four little-endian bytes stored by `writeUInt32LE` for an in-range
value (the range check itself is `writeUInt32LE?`). -/
def le32 (n : ℕ) : List ℕ :=
  [n % 256, n / 256 % 256, n / 65536 % 256, n / 16777216 % 256]

/-- `buffer.writeUInt32LE(n, off)`: Node range-checks `n` and throws
`ERR_OUT_OF_RANGE` (modelled as `none`) unless `0 ≤ n ≤ 2^32 - 1`;
otherwise it stores the four little-endian bytes. -/
def writeUInt32LE? (n : ℕ) : Option (List ℕ) :=
  if n < 4294967296 then some (le32 n) else none

/-- `buffer.writeUInt16LE(n, off)`: Node range-checks `n` and throws
`ERR_OUT_OF_RANGE` (modelled as `none`) unless `0 ≤ n ≤ 2^16 - 1`. -/
def writeUInt16LE? (n : ℕ) : Option (List ℕ) :=
  if n < 65536 then some (le16 n) else none

/-- Byte values of an ASCII string, as written by `Buffer.write`. -/
def ascii (s : String) : List ℕ := s.toList.map Char.toNat

/-- Read two bytes at `off` as a little-endian unsigned 16-bit integer. -/
def readLE16 (b : List ℕ) (off : ℕ) : ℕ :=
  b.getD off 0 + 256 * b.getD (off + 1) 0

/-- Read four bytes at `off` as a little-endian unsigned 32-bit integer. -/
def readLE32 (b : List ℕ) (off : ℕ) : ℕ :=
  b.getD off 0 + 256 * b.getD (off + 1) 0 + 65536 * b.getD (off + 2) 0 +
    16777216 * b.getD (off + 3) 0

/-- The unsigned 16-bit pattern stored by `buffer.writeInt16LE` for `v`
(two's complement, `v & 0xFFFF`). -/
def toUInt16 (v : ℤ) : ℕ := (v % 65536).toNat

/-- The two bytes written by `buffer.writeInt16LE(v, off)`, little-endian. -/
def writeInt16LE (v : ℤ) : List ℕ := [toUInt16 v % 256, toUInt16 v / 256]

/-- Decode two bytes `[lo, hi]` as a little-endian signed 16-bit integer,
as `buffer.readInt16LE` does. -/
def decodeInt16 (b : List ℕ) : ℤ :=
  let u := b.getD 0 0 + 256 * b.getD 1 0
  if u < 32768 then (u : ℤ) else (u : ℤ) - 65536

/-- `createWAVHeader(numSamples, sampleRate, channels, bitsPerSample)` from
`audioSynthesis.ts`: the fixed 44-byte RIFF/WAVE header. -/
def createWAVHeader (numSamples sampleRate channels bitsPerSample : ℕ) : List ℕ :=
  let dataSize := numSamples * channels * (bitsPerSample / 8)
  let fileSize := 36 + dataSize
  ascii "RIFF" ++ le32 fileSize ++ ascii "WAVE" ++
    ascii "fmt " ++ le32 16 ++ le16 1 ++ le16 channels ++ le32 sampleRate ++
    le32 (sampleRate * channels * (bitsPerSample / 8)) ++
    le16 (channels * (bitsPerSample / 8)) ++ le16 bitsPerSample ++
    ascii "data" ++ le32 dataSize

/-- `createWAVHeader` with Node's write range checks: `none` models the
function throwing `ERR_OUT_OF_RANGE` from one of its `writeUInt32LE` /
`writeUInt16LE` calls (first possible at the ChunkSize write when
`36 + dataSize ≥ 2^32`). -/
def createWAVHeader? (numSamples sampleRate channels bitsPerSample : ℕ) :
    Option (List ℕ) := do
  let dataSize := numSamples * channels * (bitsPerSample / 8)
  let fileSize := 36 + dataSize
  let b4 ← writeUInt32LE? fileSize
  let b16 ← writeUInt32LE? 16
  let b20 ← writeUInt16LE? 1
  let b22 ← writeUInt16LE? channels
  let b24 ← writeUInt32LE? sampleRate
  let b28 ← writeUInt32LE? (sampleRate * channels * (bitsPerSample / 8))
  let b32 ← writeUInt16LE? (channels * (bitsPerSample / 8))
  let b34 ← writeUInt16LE? bitsPerSample
  let b40 ← writeUInt32LE? dataSize
  some (ascii "RIFF" ++ b4 ++ ascii "WAVE" ++ ascii "fmt " ++ b16 ++ b20 ++
    b22 ++ b24 ++ b28 ++ b32 ++ b34 ++ ascii "data" ++ b40)

/-- `MusicParams` from `packages/shared/src/types.ts`, together with the
`trendDirection` field that `deriveMusicParams` adds to the object actually
passed to the synthesizer. -/
structure MusicParams where
  tempo : ℝ
  scale : String
  key : String
  filterCutoff : ℝ
  brightness : ℝ
  drumDensity : ℝ
  intensity : ℝ
  energyScore : ℝ
  trendDirection : String

/-- The `noteFreqs` name→Hz table of `getFrequencyFromKey` (values exact
decimals, kept as rationals). -/
def noteFreqs : List (String × ℚ) :=
  [("C", 130.81), ("C#", 138.59), ("Db", 138.59), ("D", 146.83),
   ("Dm", 146.83), ("D#", 155.56), ("Eb", 155.56), ("E", 164.81),
   ("F", 174.61), ("F#", 185.00), ("Gb", 185.00), ("G", 196.00),
   ("G#", 207.65), ("Ab", 207.65), ("A", 220.00), ("Am", 220.00),
   ("A#", 233.08), ("Bb", 233.08), ("B", 246.94)]

/-- `getFrequencyFromKey`: table lookup with fallback `130.81` (the source
uses `noteFreqs[key] || 130.81`; no table entry is falsy, so this is plain
lookup-with-default). -/
def getFrequencyFromKey (key : String) : ℚ :=
  (noteFreqs.lookup key).getD 130.81

/-- The semitone-interval list chosen by `getScaleFrequencies`:
`minor` selects the minor intervals, everything else the major ones. -/
def scaleIntervals (scaleType : String) : List ℕ :=
  if scaleType = "minor" then [0, 2, 3, 5, 7, 8, 10] else [0, 2, 4, 5, 7, 9, 11]

/-- `getScaleFrequencies(root, scaleType)`: seven frequencies
`root * 2^(semitones/12)`. -/
noncomputable def getScaleFrequencies (root : ℝ) (scaleType : String) : List ℝ :=
  (scaleIntervals scaleType).map
    (fun semitones : ℕ => root * (2 : ℝ) ^ ((semitones : ℝ) / 12))

/-- The 4-bar chord progression selected in `generateFallbackAudio` from
`trendDirection` and `scale`. -/
def chordProgression (trendDirection scale : String) : List ℕ :=
  if trendDirection = "rising" then
    (if scale = "major" then [0, 2, 3, 4] else [0, 2, 4, 5])
  else if trendDirection = "falling" then
    (if scale = "major" then [4, 3, 2, 0] else [5, 4, 2, 0])
  else
    (if scale = "major" then [0, 3, 4, 4] else [0, 3, 4, 2])

/-- The 8-step arpeggio pattern selected in `generateFallbackAudio` from
`trendDirection`. -/
def arpPattern (trendDirection : String) : List ℕ :=
  if trendDirection = "rising" then [0, 2, 4, 5, 7, 5, 4, 7]
  else if trendDirection = "falling" then [7, 5, 4, 2, 0, 2, 4, 0]
  else [0, 2, 4, 2, 0, 4, 2, 4]

/-- The per-bar chord-root sequence over the four bars of the loop. -/
def chordRootSeq (trendDirection scale : String) : List ℕ :=
  (List.range 4).map (fun bar => (chordProgression trendDirection scale).getD bar 0)

/-- The scale table computed at the top of `generateFallbackAudio`. -/
noncomputable def scaleOf (p : MusicParams) : List ℝ :=
  getScaleFrequencies ((getFrequencyFromKey p.key : ℚ) : ℝ) p.scale

/-- `beatsPerSecond = params.tempo / 60`. -/
noncomputable def beatsPerSecond (p : MusicParams) : ℝ := p.tempo / 60

/-- The sample clock `t = i / sampleRate` (the engine fixes 44100). -/
noncomputable def tOf (i : ℕ) : ℝ := (i : ℝ) / 44100

/-- `beatNumber = Math.floor(t * beatsPerSecond)`. -/
noncomputable def beatNumber (p : MusicParams) (i : ℕ) : ℤ :=
  ⌊tOf i * beatsPerSecond p⌋

/-- `beatPhase = (t * beatsPerSecond) % 1`. -/
noncomputable def beatPhase (p : MusicParams) (i : ℕ) : ℝ :=
  jsMod (tOf i * beatsPerSecond p) 1

/-- `barNumber = Math.floor(beatNumber / 4) % 4`. -/
noncomputable def barNumber (p : MusicParams) (i : ℕ) : ℤ :=
  Int.tmod ⌊(beatNumber p i : ℝ) / 4⌋ 4

/-- `beatInBar = beatNumber % 4`. -/
noncomputable def beatInBar (p : MusicParams) (i : ℕ) : ℤ :=
  Int.tmod (beatNumber p i) 4

/-- `chordRoot = chordProgression[barNumber]`; a JS out-of-bounds read
(negative bar index, reachable only for `tempo < 0`) is modelled as 0. -/
noncomputable def chordRoot (p : MusicParams) (i : ℕ) : ℕ :=
  if 0 ≤ barNumber p i then
    (chordProgression p.trendDirection p.scale).getD (barNumber p i).toNat 0
  else 0

/-- Kick drum voice: the amount the kick block adds to `sample`. -/
noncomputable def kickVal (p : MusicParams) (i : ℕ) : ℝ :=
  if beatPhase p i < 0.15 then
    let kickEnv := exp (-(beatPhase p i) * 30)
    let kickPitch := 150 * exp (-(beatPhase p i) * 40) + 40
    (sin (2 * π * kickPitch * tOf i) * kickEnv * 0.6) * p.drumDensity
  else 0

/-- Snare voice; `e i 0` is the `Math.random()` value read for its noise. -/
noncomputable def snareVal (p : MusicParams) (e : ℕ → ℕ → ℝ) (i : ℕ) : ℝ :=
  if (beatInBar p i = 1 ∨ beatInBar p i = 3) ∧ beatPhase p i < 0.1 then
    let snareEnv := exp (-(beatPhase p i) * 25)
    let noise := (e i 0 * 2 - 1) * snareEnv * 0.3
    let snareBody := sin (2 * π * 200 * tOf i) * snareEnv * 0.2
    (noise + snareBody) * p.drumDensity
  else 0

/-- Hi-hat voice; `e i 1` is the `Math.random()` value read for its noise. -/
noncomputable def hihatVal (p : MusicParams) (e : ℕ → ℕ → ℝ) (i : ℕ) : ℝ :=
  let hihatDiv : ℝ := if p.energyScore > 0.6 then 4 else 2
  let hihatPhase := jsMod (tOf i * beatsPerSecond p * hihatDiv) 1
  if hihatPhase < 0.05 then
    let hhEnv := exp (-hihatPhase * 80)
    ((e i 1 * 2 - 1) * hhEnv * 0.15) * p.drumDensity * p.brightness
  else 0

/-- Bass voice: sawtooth plus sub sine one octave below the chord root. -/
noncomputable def bassVal (p : MusicParams) (i : ℕ) : ℝ :=
  let bassFreq := (scaleOf p).getD (chordRoot p i) 0 * 0.5
  let bassEnv := if beatPhase p i < 0.5 then 1 - beatPhase p i * 0.5 else 0.75
  let bassSaw := (jsMod (tOf i * bassFreq) 1 * 2 - 1) * 0.3 * bassEnv
  let bassSub := sin (2 * π * bassFreq * 0.5 * tOf i) * 0.25 * bassEnv
  (bassSaw + bassSub) * (0.5 + p.intensity * 0.5)

/-- Pad note frequency: `scale[(chordRoot + note) % 7] * 2`. -/
def padFreq (scale : List ℝ) (root note : ℕ) : ℝ :=
  scale.getD ((root + note) % 7) 0 * 2

/-- The raw pad accumulator: the two nested `for` loops of the pad block
(notes `[0,2,4]`, detune counter `-2..2`). -/
noncomputable def padRaw (scale : List ℝ) (root : ℕ) (t : ℝ) : ℝ :=
  ([0, 2, 4] : List ℕ).foldl (fun pad note =>
    ([-2, -1, 0, 1, 2] : List ℤ).foldl (fun pad detune =>
      pad + sin (2 * π * padFreq scale root note * (1 + (detune : ℝ) * 0.002) * t) * 0.04)
      pad) 0

/-- Pad voice: the amount the pad block adds to `sample`. -/
noncomputable def padVal (p : MusicParams) (i : ℕ) : ℝ :=
  let filterSweep := 0.5 + sin (tOf i * 0.3) * 0.3
  let filterAmount := (0.3 + p.filterCutoff * 0.7) * filterSweep
  padRaw (scaleOf p) (chordRoot p i) (tOf i) * filterAmount * p.brightness * 0.8

/-- Pluck voice: 8th-note arpeggio-pattern note with three harmonics. -/
noncomputable def pluckVal (p : MusicParams) (i : ℕ) : ℝ :=
  let pluckBeat := ⌊tOf i * beatsPerSecond p * 2⌋
  let pluckPhase := jsMod (tOf i * beatsPerSecond p * 2) 1
  if pluckPhase < 0.3 then
    let pluckNote := (arpPattern p.trendDirection).getD
      (Int.tmod (pluckBeat + 2) ((arpPattern p.trendDirection).length : ℤ)).toNat 0
    let pluckFreq := (scaleOf p).getD ((chordRoot p i + pluckNote) % 7) 0 * 2
    let pluckEnv := exp (-pluckPhase * 12)
    ((sin (2 * π * pluckFreq * tOf i) * 0.5 +
      sin (2 * π * pluckFreq * 2 * tOf i) * 0.3 +
      sin (2 * π * pluckFreq * 3 * tOf i) * 0.15) * pluckEnv * 0.2) * p.brightness
  else 0

/-- Bell voice: sparse inharmonic partial stack. -/
noncomputable def bellVal (p : MusicParams) (i : ℕ) : ℝ :=
  let bellSpeed : ℝ := if p.energyScore > 0.5 then 4 else 2
  let bellBeat := ⌊tOf i * beatsPerSecond p * bellSpeed⌋
  let bellPhase := jsMod (tOf i * beatsPerSecond p * bellSpeed) 1
  if Int.tmod bellBeat 3 = 0 ∧ bellPhase < 0.2 then
    let bellNote := (arpPattern p.trendDirection).getD
      (Int.tmod bellBeat ((arpPattern p.trendDirection).length : ℤ)).toNat 0
    let bellFreq := (scaleOf p).getD ((chordRoot p i + bellNote) % 7) 0 * 8
    let bellEnv := exp (-bellPhase * 20)
    ((sin (2 * π * bellFreq * tOf i) +
      sin (2 * π * bellFreq * 2.4 * tOf i) * 0.5 +
      sin (2 * π * bellFreq * 5.95 * tOf i) * 0.25) * bellEnv * 0.08) *
      p.brightness * p.brightness
  else 0

/-- Arpeggio lead voice: filtered sawtooth, always running. -/
noncomputable def arpVal (p : MusicParams) (i : ℕ) : ℝ :=
  let arpSpeed : ℝ := if p.tempo > 120 then 4 else 2
  let arpBeat := ⌊tOf i * beatsPerSecond p * arpSpeed⌋
  let arpNote := (arpPattern p.trendDirection).getD
    (Int.tmod arpBeat ((arpPattern p.trendDirection).length : ℤ)).toNat 0
  let arpFreq := (scaleOf p).getD ((chordRoot p i + arpNote) % 7) 0 * 4
  let arpPhase := jsMod (tOf i * beatsPerSecond p * arpSpeed) 1
  let arpEnv := exp (-arpPhase * 4) * (0.3 + p.energyScore * 0.4)
  let sawWave := jsMod (tOf i * arpFreq) 1 * 2 - 1
  (sawWave * (0.5 + p.filterCutoff * 0.5)) * arpEnv * 0.12 * p.brightness

/-- Acid-accent voice: resonant square on odd beats when `intensity > 0.5`. -/
noncomputable def acidVal (p : MusicParams) (i : ℕ) : ℝ :=
  if Int.tmod (beatInBar p i) 2 = 1 ∧ beatPhase p i < 0.15 ∧ p.intensity > 0.5 then
    let acidFreq := (scaleOf p).getD (chordRoot p i) 0 * 2
    let acidEnv := exp (-(beatPhase p i) * 20)
    let acidPhase := jsMod (tOf i * acidFreq) 1
    ((if acidPhase < 0.5 then (1 : ℝ) else -1) * acidEnv) * 0.15 * p.intensity
  else 0

/-- Formant "vocal chop" voice, firing once at bar 2, beat 0. -/
noncomputable def vowelVal (p : MusicParams) (i : ℕ) : ℝ :=
  if barNumber p i = 2 ∧ beatInBar p i = 0 ∧ beatPhase p i < 0.4 then
    let vowelFreq := (scaleOf p).getD (chordRoot p i) 0 * 4
    let vowelEnv := exp (-(beatPhase p i) * 5)
    ((sin (2 * π * vowelFreq * tOf i) * 0.5 +
      sin (2 * π * 730 * tOf i) * sin (2 * π * vowelFreq * tOf i) * 0.3 +
      sin (2 * π * 1090 * tOf i) * sin (2 * π * vowelFreq * tOf i) * 0.15) *
      vowelEnv * 0.15) * p.brightness
  else 0

/-- The summed voice signal for sample `i` (the value of `sample` before
master processing). -/
noncomputable def summedSample (p : MusicParams) (e : ℕ → ℕ → ℝ) (i : ℕ) : ℝ :=
  kickVal p i + snareVal p e i + hihatVal p e i + bassVal p i + padVal p i +
    pluckVal p i + bellVal p i + arpVal p i + acidVal p i + vowelVal p i

/-- Master bus: `sample = Math.tanh(sample * 1.5) * 0.8`. -/
noncomputable def masterSample (p : MusicParams) (e : ℕ → ℕ → ℝ) (i : ℕ) : ℝ :=
  tanh (summedSample p e i * 1.5) * 0.8

/-- Stereo width modulation `Math.sin(t * 0.5) * 0.1`. -/
noncomputable def stereoPhase (i : ℕ) : ℝ := sin (tOf i * 0.5) * 0.1

/-- Left channel sample before quantization. -/
noncomputable def leftSample (p : MusicParams) (e : ℕ → ℕ → ℝ) (i : ℕ) : ℝ :=
  masterSample p e i * (1 + stereoPhase i)

/-- Right channel sample before quantization. -/
noncomputable def rightSample (p : MusicParams) (e : ℕ → ℕ → ℝ) (i : ℕ) : ℝ :=
  masterSample p e i * (1 - stereoPhase i)

/-- The clamp `Math.max(-1, Math.min(1, x))` used by the quantizer. -/
noncomputable def clampPM1 (x : ℝ) : ℝ := max (-1) (min 1 x)

/-- The 16-bit quantizer `Math.floor(Math.max(-1, Math.min(1, x)) * 32767)`. -/
noncomputable def pcm16 (x : ℝ) : ℤ := ⌊clampPM1 x * 32767⌋

/-- The integer written for the left channel at sample `i`. -/
noncomputable def leftInt (p : MusicParams) (e : ℕ → ℕ → ℝ) (i : ℕ) : ℤ :=
  pcm16 (leftSample p e i)

/-- The integer written for the right channel at sample `i`. -/
noncomputable def rightInt (p : MusicParams) (e : ℕ → ℕ → ℝ) (i : ℕ) : ℤ :=
  pcm16 (rightSample p e i)

/-- The four data bytes of sample `i`: left then right, each little-endian. -/
noncomputable def sampleBytes (p : MusicParams) (e : ℕ → ℕ → ℝ) (i : ℕ) : List ℕ :=
  writeInt16LE (leftInt p e i) ++ writeInt16LE (rightInt p e i)

/-- The PCM data buffer after the loop has written samples `0..n-1`. -/
noncomputable def pcmData (p : MusicParams) (e : ℕ → ℕ → ℝ) : ℕ → List ℕ
  | 0 => []
  | n + 1 => pcmData p e n ++ sampleBytes p e n

/-- `numSamples = sampleRate * durationSeconds` with `sampleRate = 44100`. -/
def numSamples (durationSeconds : ℕ) : ℕ := 44100 * durationSeconds

/-- The complete WAV byte sequence produced by `generateFallbackAudio`:
header followed by the PCM data (`Buffer.concat([wavHeader, buffer])`). -/
noncomputable def renderWav (p : MusicParams) (durationSeconds : ℕ)
    (e : ℕ → ℕ → ℝ) : List ℕ :=
  createWAVHeader (numSamples durationSeconds) 44100 2 16 ++
    pcmData p e (numSamples durationSeconds)

/-- The render including the header writes' range checks: `none` models
`generateFallbackAudio` throwing `ERR_OUT_OF_RANGE` out of
`createWAVHeader`, and `some` the returned container bytes. -/
noncomputable def renderWav? (p : MusicParams) (durationSeconds : ℕ)
    (e : ℕ → ℕ → ℝ) : Option (List ℕ) :=
  (createWAVHeader? (numSamples durationSeconds) 44100 2 16).map
    (fun header => header ++ pcmData p e (numSamples durationSeconds))

/-- `WaveformData` from `packages/shared/src/types.ts`. -/
structure WaveformData where
  peaks : List ℝ
  duration : ℝ
  sampleRate : ℕ

/-- `normalizePeak`: 16-bit magnitude to `[0,1]`. -/
noncomputable def normalizePeak (value : ℕ) : ℝ :=
  max 0 (min 1 ((value : ℝ) / 32767))

/-- `buffer.readInt16LE(j)` on a byte list. -/
def readInt16At (b : List ℕ) (j : ℕ) : ℤ :=
  decodeInt16 [b.getD j 0, b.getD (j + 1) 0]

/-- The bucket maximum of `createWaveform`'s buffered mode: the running
`max` of `Math.abs(audioBuffer.readInt16LE(j))` for `j = start, start+2, ...`
strictly below `stop`. -/
def bucketMax (b : List ℕ) (start stop : ℕ) : ℕ :=
  ((List.range ((stop - start + 1) / 2)).map
    (fun k => (readInt16At b (start + 2 * k)).natAbs)).foldl max 0

/-- One synthetic peak of `createWaveform`'s no-buffer mode. -/
noncomputable def syntheticPeak (p : MusicParams) (duration : ℝ) (i : ℕ) : ℝ :=
  let t := ((i : ℝ) / 200) * duration
  let beatPhase := jsMod (t * (p.tempo / 60)) 1
  let base := 0.3 + sin (t * 2) * 0.2
  let withKick := if beatPhase < 0.1 then base + p.drumDensity * 0.5 else base
  let amplitude := withKick + sin (t * p.tempo / 10) * 0.1 * p.brightness
  max 0 (min 1 amplitude)

/-- `createWaveform(audioBuffer, duration, musicParams)` from the waveform
tool: 200 peaks, from the buffer when one is given, synthetic otherwise. -/
noncomputable def createWaveform (audioBuffer : Option (List ℕ)) (duration : ℝ)
    (p : MusicParams) : WaveformData :=
  let peaks : List ℝ :=
    match audioBuffer with
    | some b =>
        let samplesPerPeak := b.length / 2 / 200
        (List.range 200).map (fun i =>
          normalizePeak (bucketMax b (i * samplesPerPeak * 2)
            (min (i * samplesPerPeak * 2 + samplesPerPeak * 2) b.length)))
    | none => (List.range 200).map (fun i => syntheticPeak p duration i)
  { peaks := peaks, duration := duration, sampleRate := 44100 }

/-- The scenario parameters of spec §8 (tempo 128, key C major, rising). -/
def pScenario : MusicParams :=
  { tempo := 128, scale := "major", key := "C", filterCutoff := 0.6,
    brightness := 0.8, drumDensity := 0.7, intensity := 0.75,
    energyScore := 0.8, trendDirection := "rising" }

/-- A parameter set with `tempo = 0`, violating the documented
`tempo > 0` precondition. -/
def pZeroTempo : MusicParams :=
  { tempo := 0, scale := "major", key := "C", filterCutoff := 0.6,
    brightness := 0.8, drumDensity := 0.7, intensity := 0.75,
    energyScore := 0.8, trendDirection := "rising" }

/-- Parameters used to separate two entropy streams: key A major, stable
trend, tempo 60, all tonal voices muted by `brightness = 0`, drums on. -/
def pDet : MusicParams :=
  { tempo := 60, scale := "major", key := "A", filterCutoff := 0,
    brightness := 0, drumDensity := 1, intensity := 0,
    energyScore := 0, trendDirection := "stable" }

/-- Parameters with `drumDensity = 0`: both noise voices are nulled. -/
def pNoDrums : MusicParams :=
  { tempo := 128, scale := "minor", key := "E", filterCutoff := 0.6,
    brightness := 0.8, drumDensity := 0, intensity := 0.75,
    energyScore := 0.8, trendDirection := "falling" }

/-- A constant ambient entropy stream whose `Math.random()` reads are all
`1/2`. -/
noncomputable def eHalf : ℕ → ℕ → ℝ := fun _ _ => 1 / 2

/-- A constant ambient entropy stream whose `Math.random()` reads are all
`3/4`. -/
noncomputable def eThreeQuarters : ℕ → ℕ → ℝ := fun _ _ => 3 / 4

/-- A constant ambient entropy stream whose `Math.random()` reads are all
`0`. -/
noncomputable def eZero : ℕ → ℕ → ℝ := fun _ _ => 0

lemma ascii_RIFF : ascii "RIFF" = [82, 73, 70, 70] := by decide

lemma ascii_WAVE : ascii "WAVE" = [87, 65, 86, 69] := by decide

lemma ascii_fmt : ascii "fmt " = [102, 109, 116, 32] := by decide

lemma ascii_data : ascii "data" = [100, 97, 116, 97] := by decide

lemma createWAVHeader_length (ns sr ch bits : ℕ) :
    (createWAVHeader ns sr ch bits).length = 44 := by
  simp [createWAVHeader, ascii_RIFF, ascii_WAVE, ascii_fmt, ascii_data, le16, le32]

lemma sampleBytes_length (p : MusicParams) (e : ℕ → ℕ → ℝ) (i : ℕ) :
    (sampleBytes p e i).length = 4 := by
  simp [sampleBytes, writeInt16LE]

lemma pcmData_length (p : MusicParams) (e : ℕ → ℕ → ℝ) (n : ℕ) :
    (pcmData p e n).length = 4 * n := by
  induction n with
  | zero => rfl
  | succ m ih => simp [pcmData, ih, sampleBytes_length]; ring

lemma renderWav_length (p : MusicParams) (d : ℕ) (e : ℕ → ℕ → ℝ) :
    (renderWav p d e).length = 44 + 4 * numSamples d := by
  simp [renderWav, createWAVHeader_length, pcmData_length]

lemma jsTrunc_intCast (n : ℤ) : jsTrunc (n : ℝ) = n := by
  unfold jsTrunc
  split <;> simp

lemma jsMod_one_intCast (n : ℤ) : jsMod ((n : ℤ) : ℝ) 1 = 0 := by
  unfold jsMod
  rw [div_one, jsTrunc_intCast]
  ring

lemma clampPM1_le_one (x : ℝ) : clampPM1 x ≤ 1 := by
  unfold clampPM1
  exact max_le (by norm_num) (min_le_left 1 x)

lemma neg_one_le_clampPM1 (x : ℝ) : -1 ≤ clampPM1 x := le_max_left (-1) (min 1 x)

lemma pcm16_le (x : ℝ) : pcm16 x ≤ 32767 := by
  unfold pcm16
  have h : clampPM1 x * 32767 ≤ ((32767 : ℤ) : ℝ) := by
    have := clampPM1_le_one x
    push_cast
    nlinarith
  calc ⌊clampPM1 x * 32767⌋ ≤ ⌊((32767 : ℤ) : ℝ)⌋ := Int.floor_le_floor h
    _ = 32767 := Int.floor_intCast 32767

lemma le_pcm16 (x : ℝ) : -32768 ≤ pcm16 x := by
  unfold pcm16
  apply Int.le_floor.mpr
  have := neg_one_le_clampPM1 x
  push_cast
  nlinarith

lemma tanh_neg_of_neg {x : ℝ} (h : x < 0) : Real.tanh x < 0 := by
  rw [Real.tanh_eq_sinh_div_cosh]
  exact div_neg_of_neg_of_pos (Real.sinh_neg_iff.mpr h) (Real.cosh_pos x)

lemma abs_tanh_lt_one (x : ℝ) : |Real.tanh x| < 1 := by
  rw [Real.tanh_eq_sinh_div_cosh, abs_div, abs_of_pos (Real.cosh_pos x)]
  rw [div_lt_one (Real.cosh_pos x)]
  have h1 := Real.cosh_sq_sub_sinh_sq x
  have h2 := abs_nonneg (Real.sinh x)
  have h3 := sq_abs (Real.sinh x)
  have h4 := Real.cosh_pos x
  nlinarith

lemma clampPM1_eq_self {x : ℝ} (h1 : -1 ≤ x) (h2 : x ≤ 1) : clampPM1 x = x := by
  unfold clampPM1
  rw [min_eq_right h2, max_eq_right h1]

lemma abs_stereoPhase_le (i : ℕ) : |stereoPhase i| ≤ 0.1 := by
  unfold stereoPhase
  rw [abs_mul]
  have h := Real.abs_sin_le_one (tOf i * 0.5)
  rw [abs_of_pos (by norm_num : (0:ℝ) < 0.1)]
  nlinarith

lemma abs_masterSample_le (p : MusicParams) (e : ℕ → ℕ → ℝ) (i : ℕ) :
    |masterSample p e i| ≤ 0.8 := by
  unfold masterSample
  rw [abs_mul]
  have h := abs_tanh_lt_one (summedSample p e i * 1.5)
  rw [abs_of_pos (by norm_num : (0:ℝ) < 0.8)]
  nlinarith

lemma abs_leftSample_le (p : MusicParams) (e : ℕ → ℕ → ℝ) (i : ℕ) :
    |leftSample p e i| ≤ 0.88 := by
  unfold leftSample
  rw [abs_mul]
  have h1 := abs_masterSample_le p e i
  have h2 := abs_stereoPhase_le i
  have h3 : |1 + stereoPhase i| ≤ 1.1 := by
    rw [abs_le] at h2 ⊢
    constructor <;> nlinarith [h2.1, h2.2]
  have h4 := abs_nonneg (masterSample p e i)
  nlinarith

lemma abs_rightSample_le (p : MusicParams) (e : ℕ → ℕ → ℝ) (i : ℕ) :
    |rightSample p e i| ≤ 0.88 := by
  unfold rightSample
  rw [abs_mul]
  have h1 := abs_masterSample_le p e i
  have h2 := abs_stereoPhase_le i
  have h3 : |1 - stereoPhase i| ≤ 1.1 := by
    rw [abs_le] at h2 ⊢
    constructor <;> nlinarith [h2.1, h2.2]
  have h4 := abs_nonneg (masterSample p e i)
  nlinarith

lemma abs_pcm16_le_of_abs_le {x : ℝ} (h : |x| ≤ 0.88) : |pcm16 x| ≤ 28835 := by
  rw [abs_le] at h
  have hc : clampPM1 x = x := clampPM1_eq_self (by nlinarith [h.1]) (by nlinarith [h.2])
  unfold pcm16
  rw [hc, abs_le]
  constructor
  · apply Int.le_floor.mpr
    push_cast
    nlinarith [h.1]
  · have hy : x * 32767 ≤ ((28835 : ℤ) : ℝ) := by push_cast; nlinarith [h.2]
    calc ⌊x * 32767⌋ ≤ ⌊((28835 : ℤ) : ℝ)⌋ := Int.floor_le_floor hy
      _ = 28835 := Int.floor_intCast 28835

/-- C5: for every parameter set, entropy stream and sample index, the
integers emitted by the 16-bit quantizer for the left and right channels
lie in `[-32768, 32767]`, so the little-endian 16-bit write is always
given an in-range value. -/
theorem c5_emitted_in_range (p : MusicParams) (e : ℕ → ℕ → ℝ) (i : ℕ) :
    (-32768 ≤ leftInt p e i ∧ leftInt p e i ≤ 32767) ∧
    (-32768 ≤ rightInt p e i ∧ rightInt p e i ≤ 32767) :=
  ⟨⟨le_pcm16 _, pcm16_le _⟩, ⟨le_pcm16 _, pcm16_le _⟩⟩

/-- C10: after soft clipping `tanh(summed * 1.5) * 0.8` and the stereo
gains `1 ± sin(t*0.5)*0.1`, every channel value has absolute value at most
`0.88`, the quantizer's clamp to `[-1,1]` never alters it, and the emitted
integer has absolute value at most `28835`, strictly inside the 16-bit
range. -/
theorem c10_master_headroom (p : MusicParams) (e : ℕ → ℕ → ℝ) (i : ℕ) :
    (|leftSample p e i| ≤ 0.88 ∧ |rightSample p e i| ≤ 0.88) ∧
    (clampPM1 (leftSample p e i) = leftSample p e i ∧
      clampPM1 (rightSample p e i) = rightSample p e i) ∧
    (|leftInt p e i| ≤ 28835 ∧ |rightInt p e i| ≤ 28835) := by
  have hl := abs_leftSample_le p e i
  have hr := abs_rightSample_le p e i
  refine ⟨⟨hl, hr⟩, ⟨?_, ?_⟩, abs_pcm16_le_of_abs_le hl, abs_pcm16_le_of_abs_le hr⟩
  · rw [abs_le] at hl
    exact clampPM1_eq_self (by nlinarith [hl.1]) (by nlinarith [hl.2])
  · rw [abs_le] at hr
    exact clampPM1_eq_self (by nlinarith [hr.1]) (by nlinarith [hr.2])

/-- C4 counterexample: the quantizer is `Math.floor`, not `round`: at the
channel sample `1/2` it emits `16383` while `round(clamp(1/2)*32767)` is
`16384`. -/
theorem c4_counterexample :
    pcm16 (1 / 2) ≠ round (clampPM1 (1 / 2) * 32767) := by
  have hc : clampPM1 ((1 : ℝ) / 2) = 1 / 2 :=
    clampPM1_eq_self (by norm_num) (by norm_num)
  unfold pcm16
  rw [hc]
  have h1 : ⌊(1 / 2 : ℝ) * 32767⌋ = (16383 : ℤ) := by
    apply Int.floor_eq_iff.mpr
    constructor <;> norm_num
  have h2 : round ((1 / 2 : ℝ) * 32767) = (16384 : ℤ) := by
    rw [round_eq]
    apply Int.floor_eq_iff.mpr
    constructor <;> norm_num
  rw [h1, h2]
  decide

lemma pcmData_getD (p : MusicParams) (e : ℕ → ℕ → ℝ) {n i j : ℕ}
    (hi : i < n) (hj : j < 4) :
    (pcmData p e n).getD (4 * i + j) 0 = (sampleBytes p e i).getD j 0 := by
  induction n with
  | zero => omega
  | succ m ih =>
    rcases Nat.lt_succ_iff_lt_or_eq.mp hi with h | h
    · rw [pcmData, List.getD_append]
      · exact ih h
      · rw [pcmData_length]
        omega
    · subst h
      rw [pcmData, List.getD_append_right]
      · congr 1
        rw [pcmData_length]
        omega
      · rw [pcmData_length]
        omega

lemma sampleBytes_getD_zero (p : MusicParams) (e : ℕ → ℕ → ℝ) (i : ℕ) :
    (sampleBytes p e i).getD 0 0 = toUInt16 (leftInt p e i) % 256 := rfl

lemma sampleBytes_getD_one (p : MusicParams) (e : ℕ → ℕ → ℝ) (i : ℕ) :
    (sampleBytes p e i).getD 1 0 = toUInt16 (leftInt p e i) / 256 := rfl

lemma sampleBytes_getD_two (p : MusicParams) (e : ℕ → ℕ → ℝ) (i : ℕ) :
    (sampleBytes p e i).getD 2 0 = toUInt16 (rightInt p e i) % 256 := rfl

lemma sampleBytes_getD_three (p : MusicParams) (e : ℕ → ℕ → ℝ) (i : ℕ) :
    (sampleBytes p e i).getD 3 0 = toUInt16 (rightInt p e i) / 256 := rfl

lemma decodeInt16_writeInt16LE (v : ℤ) (h1 : -32768 ≤ v) (h2 : v ≤ 32767) :
    decodeInt16 (writeInt16LE v) = v := by
  unfold decodeInt16 writeInt16LE toUInt16
  simp only [List.getD_cons_zero, List.getD_cons_succ]
  omega

/-- C4 amended: the PCM encoding step emits, for each channel,
`Math.floor(clamp(x,-1,1) * 32767)` (floor, not round), written as two
little-endian bytes with the channels interleaved left then right: reading
sample `i`'s four data bytes back as signed little-endian 16-bit integers
recovers exactly the floor-quantized left and right channel values. -/
theorem c4_floor_quantizer (p : MusicParams) (e : ℕ → ℕ → ℝ) (n i : ℕ)
    (h : i < n) :
    decodeInt16 [(pcmData p e n).getD (4 * i) 0, (pcmData p e n).getD (4 * i + 1) 0] =
      ⌊clampPM1 (leftSample p e i) * 32767⌋ ∧
    decodeInt16 [(pcmData p e n).getD (4 * i + 2) 0, (pcmData p e n).getD (4 * i + 3) 0] =
      ⌊clampPM1 (rightSample p e i) * 32767⌋ := by
  have e0 : (pcmData p e n).getD (4 * i) 0 = (sampleBytes p e i).getD 0 0 := by
    have h' := pcmData_getD p e h (show (0 : ℕ) < 4 by omega)
    simpa using h'
  have e1 := pcmData_getD p e h (show (1 : ℕ) < 4 by omega)
  have e2 := pcmData_getD p e h (show (2 : ℕ) < 4 by omega)
  have e3 := pcmData_getD p e h (show (3 : ℕ) < 4 by omega)
  rw [e0, e1, e2, e3, sampleBytes_getD_zero, sampleBytes_getD_one,
    sampleBytes_getD_two, sampleBytes_getD_three]
  exact ⟨decodeInt16_writeInt16LE (pcm16 (leftSample p e i)) (le_pcm16 _) (pcm16_le _),
    decodeInt16_writeInt16LE (pcm16 (rightSample p e i)) (le_pcm16 _) (pcm16_le _)⟩

/-- Witness for C4's amended theorem at sample 0 of a 1-sample buffer. -/
theorem c4_floor_quantizer_witness :
    (0 : ℕ) < 1 ∧
    decodeInt16 [(pcmData pScenario eHalf 1).getD 0 0, (pcmData pScenario eHalf 1).getD 1 0] =
      ⌊clampPM1 (leftSample pScenario eHalf 0) * 32767⌋ :=
  ⟨by decide, by
    have h := (c4_floor_quantizer pScenario eHalf 1 0 (by decide)).1
    simpa using h⟩

lemma scaleIntervals_length (st : String) : (scaleIntervals st).length = 7 := by
  unfold scaleIntervals
  split <;> rfl

/-- C6: the scale mapping always returns 7 frequencies, the i-th equal to
`root * 2^(semitone_i/12)` with major offsets `[0,2,4,5,7,9,11]` and minor
offsets `[0,2,3,5,7,8,10]`, any scale type other than `"minor"` falling
back to major; the unknown key `"Z"` falls back to the default root
`130.81` Hz and therefore yields exactly the same frequency table as the
default key `"C"`. -/
theorem c6_scale_mapper :
    getFrequencyFromKey "Z" = 130.81 ∧
    getFrequencyFromKey "Z" = getFrequencyFromKey "C" ∧
    (∀ (root : ℝ) (st : String), (getScaleFrequencies root st).length = 7) ∧
    scaleIntervals "major" = [0, 2, 4, 5, 7, 9, 11] ∧
    scaleIntervals "minor" = [0, 2, 3, 5, 7, 8, 10] ∧
    (∀ st : String, st ≠ "minor" →
      ∀ root : ℝ, getScaleFrequencies root st = getScaleFrequencies root "major") ∧
    (∀ (root : ℝ) (st : String) (i : ℕ), i < 7 →
      (getScaleFrequencies root st).getD i 0 =
        root * (2 : ℝ) ^ ((((scaleIntervals st).getD i 0 : ℕ) : ℝ) / 12)) ∧
    (∀ st : String,
      getScaleFrequencies ((getFrequencyFromKey "Z" : ℚ) : ℝ) st =
        getScaleFrequencies ((getFrequencyFromKey "C" : ℚ) : ℝ) st) := by
  have hintervals : ∀ st : String, st ≠ "minor" → scaleIntervals st = scaleIntervals "major" := by
    intro st h
    unfold scaleIntervals
    rw [if_neg h, if_neg (by decide)]
  refine ⟨rfl, rfl, ?_, by decide, by decide, ?_, ?_, ?_⟩
  · intro root st
    unfold getScaleFrequencies
    rw [List.length_map, scaleIntervals_length]
  · intro st h root
    unfold getScaleFrequencies
    rw [hintervals st h]
  · intro root st i hi
    have hlen : i < (scaleIntervals st).length := by rw [scaleIntervals_length]; omega
    have hlen' : i < ((scaleIntervals st).map
        (fun semitones : ℕ => root * (2 : ℝ) ^ ((semitones : ℝ) / 12))).length := by
      rw [List.length_map]; exact hlen
    unfold getScaleFrequencies
    rw [List.getD_eq_getElem _ _ hlen', List.getElem_map, List.getD_eq_getElem _ _ hlen]
  · intro st
    have h : getFrequencyFromKey "Z" = getFrequencyFromKey "C" := rfl
    rw [h]

/-- Witness for C6 at scale type `"pentatonic"` and table index 0. -/
theorem c6_scale_mapper_witness :
    ("pentatonic" ≠ "minor") ∧ ((0 : ℕ) < 7) ∧
    getScaleFrequencies 220 "pentatonic" = getScaleFrequencies 220 "major" ∧
    (getScaleFrequencies 220 "major").getD 0 0 =
      220 * (2 : ℝ) ^ ((((scaleIntervals "major").getD 0 0 : ℕ) : ℝ) / 12) :=
  ⟨by decide, by decide,
    c6_scale_mapper.2.2.2.2.2.1 "pentatonic" (by decide) 220,
    c6_scale_mapper.2.2.2.2.2.2.1 220 "major" 0 (by decide)⟩

/-- C7: the 4-entry chord progression and 8-entry arpeggio pattern are
selected totally over every `trendDirection`/`scale` combination, and
`"falling"` versus `"rising"` always select different progression and
arpeggio arrays and produce different chord-root sequences over the four
bars. -/
theorem c7_progression_selection :
    (∀ td sc : String,
      (chordProgression td sc).length = 4 ∧ (arpPattern td).length = 8) ∧
    (∀ sc : String, chordProgression "rising" sc ≠ chordProgression "falling" sc) ∧
    arpPattern "rising" ≠ arpPattern "falling" ∧
    (∀ sc : String, chordRootSeq "rising" sc ≠ chordRootSeq "falling" sc) := by
  refine ⟨?_, ?_, by decide, ?_⟩
  · intro td sc
    constructor
    · unfold chordProgression
      split_ifs <;> rfl
    · unfold arpPattern
      split_ifs <;> rfl
  · intro sc
    by_cases h : sc = "major"
    · subst h
      decide
    · have h1 : chordProgression "rising" sc = [0, 2, 4, 5] := by
        unfold chordProgression
        rw [if_pos rfl, if_neg h]
      have h2 : chordProgression "falling" sc = [5, 4, 2, 0] := by
        unfold chordProgression
        rw [if_neg (by decide), if_pos rfl, if_neg h]
      rw [h1, h2]
      decide
  · intro sc
    by_cases h : sc = "major"
    · subst h
      decide
    · have h1 : chordProgression "rising" sc = [0, 2, 4, 5] := by
        unfold chordProgression
        rw [if_pos rfl, if_neg h]
      have h2 : chordProgression "falling" sc = [5, 4, 2, 0] := by
        unfold chordProgression
        rw [if_neg (by decide), if_pos rfl, if_neg h]
      unfold chordRootSeq
      simp only [h1, h2]
      decide

lemma getScaleFrequencies_getD (root : ℝ) (st : String) {i : ℕ} (hi : i < 7) :
    (getScaleFrequencies root st).getD i 0 =
      root * (2 : ℝ) ^ ((((scaleIntervals st).getD i 0 : ℕ) : ℝ) / 12) := by
  have hlen : i < (scaleIntervals st).length := by rw [scaleIntervals_length]; omega
  have hlen' : i < ((scaleIntervals st).map
      (fun semitones : ℕ => root * (2 : ℝ) ^ ((semitones : ℝ) / 12))).length := by
    rw [List.length_map]; exact hlen
  unfold getScaleFrequencies
  rw [List.getD_eq_getElem _ _ hlen', List.getElem_map, List.getD_eq_getElem _ _ hlen]

lemma scaleOf_C_major_root :
    (getScaleFrequencies ((getFrequencyFromKey "C" : ℚ) : ℝ) "major").getD 0 0 = 130.81 := by
  have h := getScaleFrequencies_getD ((getFrequencyFromKey "C" : ℚ) : ℝ) "major"
    (show (0 : ℕ) < 7 by omega)
  have h0 : (scaleIntervals "major").getD 0 0 = 0 := by decide
  rw [h0] at h
  have hc : ((getFrequencyFromKey "C" : ℚ) : ℝ) = 130.81 := by
    have : getFrequencyFromKey "C" = (130.81 : ℚ) := rfl
    rw [this]
    norm_num
  rw [h, hc]
  norm_num

/-- C8 counterexample: the pad note frequency is `scale[(root+note)%7] * 2`
(one octave up), not `* 4` (two octaves up): with the default C-major scale
table and chord root 0 the pad's root note sounds at `261.62` Hz, not
`523.24` Hz. -/
theorem c8_counterexample :
    padFreq (getScaleFrequencies ((getFrequencyFromKey "C" : ℚ) : ℝ) "major") 0 0 ≠
      (getScaleFrequencies ((getFrequencyFromKey "C" : ℚ) : ℝ) "major").getD
        ((0 + 0) % 7) 0 * 4 := by
  unfold padFreq
  rw [show ((0 : ℕ) + 0) % 7 = 0 by decide, scaleOf_C_major_root]
  norm_num

/-- C8 amended: the pad voice is a 3-note triad (chord root plus
scale-degree offsets 2 and 4) sounding one octave above the scale-table
frequencies (`scale[(chordRoot+offset) % 7] * 2`), each note realized as 5
detuned sine oscillators with detune factors `1 + k*0.002` for
`k ∈ {-2,-1,0,1,2}`, i.e. ±0.4% detune. -/
theorem c8_pad_one_octave (s : List ℝ) (root : ℕ) (t : ℝ) :
    (∀ note : ℕ, padFreq s root note = s.getD ((root + note) % 7) 0 * 2) ∧
    padRaw s root t =
      ∑ note ∈ ({0, 2, 4} : Finset ℕ), ∑ k ∈ Finset.Icc (-2 : ℤ) 2,
        sin (2 * π * (s.getD ((root + note) % 7) 0 * 2) * (1 + (k : ℝ) * 0.002) * t)
          * 0.04 := by
  constructor
  · intro note
    rfl
  · have hIcc : Finset.Icc (-2 : ℤ) 2 = ({-2, -1, 0, 1, 2} : Finset ℤ) := by
      ext x
      simp only [Finset.mem_Icc, Finset.mem_insert, Finset.mem_singleton]
      omega
    unfold padRaw padFreq
    rw [hIcc]
    simp only [List.foldl_cons, List.foldl_nil]
    norm_num [Finset.sum_insert, Finset.mem_insert, Finset.mem_singleton]
    ring

lemma clamp01_nonneg (x : ℝ) : 0 ≤ max 0 (min 1 x) := le_max_left 0 (min 1 x)

lemma clamp01_le_one (x : ℝ) : max 0 (min 1 x) ≤ 1 :=
  max_le zero_le_one (min_le_left 1 x)

lemma normalizePeak_bounds (v : ℕ) : 0 ≤ normalizePeak v ∧ normalizePeak v ≤ 1 :=
  ⟨clamp01_nonneg _, clamp01_le_one _⟩

lemma syntheticPeak_bounds (p : MusicParams) (d : ℝ) (i : ℕ) :
    0 ≤ syntheticPeak p d i ∧ syntheticPeak p d i ≤ 1 :=
  ⟨clamp01_nonneg _, clamp01_le_one _⟩

/-- C9: `createWaveform` always returns exactly 200 peaks, each in
`[0,1]`, for every buffer, duration and parameter set; in from-buffer mode
peak `i` is the bucket's maximum absolute 16-bit magnitude normalized by
`32767` and clamped, and in no-buffer mode peak `i` is the synthetic
amplitude clamped to `[0,1]`. -/
theorem c9_waveform_peaks (b : List ℕ) (d : ℝ) (p : MusicParams) :
    (createWaveform (some b) d p).peaks.length = 200 ∧
    (createWaveform none d p).peaks.length = 200 ∧
    (∀ i : ℕ,
      (0 ≤ (createWaveform (some b) d p).peaks.getD i 0 ∧
        (createWaveform (some b) d p).peaks.getD i 0 ≤ 1) ∧
      (0 ≤ (createWaveform none d p).peaks.getD i 0 ∧
        (createWaveform none d p).peaks.getD i 0 ≤ 1)) ∧
    (∀ i : ℕ, i < 200 →
      (createWaveform (some b) d p).peaks.getD i 0 =
        normalizePeak (bucketMax b (i * (b.length / 2 / 200) * 2)
          (min (i * (b.length / 2 / 200) * 2 + (b.length / 2 / 200) * 2) b.length)) ∧
      (createWaveform none d p).peaks.getD i 0 = syntheticPeak p d i) := by
  have hsome : (createWaveform (some b) d p).peaks =
      (List.range 200).map (fun i =>
        normalizePeak (bucketMax b (i * (b.length / 2 / 200) * 2)
          (min (i * (b.length / 2 / 200) * 2 + (b.length / 2 / 200) * 2) b.length))) := rfl
  have hnone : (createWaveform none d p).peaks =
      (List.range 200).map (fun i => syntheticPeak p d i) := rfl
  have hget : ∀ (f : ℕ → ℝ) (i : ℕ), i < 200 →
      ((List.range 200).map f).getD i 0 = f i := by
    intro f i hi
    have hlen : i < ((List.range 200).map f).length := by
      rw [List.length_map, List.length_range]
      omega
    rw [List.getD_eq_getElem _ _ hlen]
    simp [List.getElem_map, List.getElem_range]
  have hlen200 : ∀ f : ℕ → ℝ, ((List.range 200).map f).length = 200 := by
    intro f
    rw [List.length_map, List.length_range]
  refine ⟨by rw [hsome]; exact hlen200 _, by rw [hnone]; exact hlen200 _, ?_, ?_⟩
  · intro i
    rcases lt_or_ge i 200 with hi | hi
    · rw [hsome, hnone, hget _ i hi, hget _ i hi]
      exact ⟨normalizePeak_bounds _, syntheticPeak_bounds p d i⟩
    · have h1 : ((List.range 200).map (fun i =>
          normalizePeak (bucketMax b (i * (b.length / 2 / 200) * 2)
            (min (i * (b.length / 2 / 200) * 2 + (b.length / 2 / 200) * 2)
              b.length)))).getD i 0 = 0 := by
        apply List.getD_eq_default
        rw [hlen200]
        omega
      have h2 : ((List.range 200).map (fun i => syntheticPeak p d i)).getD i 0 = 0 := by
        apply List.getD_eq_default
        rw [hlen200]
        omega
      rw [hsome, hnone, h1, h2]
      norm_num
  · intro i hi
    rw [hsome, hnone, hget _ i hi, hget _ i hi]
    exact ⟨rfl, rfl⟩

/-- Witness for C9 at index 0 with no buffer and the §8 scenario params. -/
theorem c9_waveform_peaks_witness :
    (0 : ℕ) < 200 ∧
    (createWaveform none 8 pScenario).peaks.getD 0 0 = syntheticPeak pScenario 8 0 :=
  ⟨by decide, ((c9_waveform_peaks [] 8 pScenario).2.2.2 0 (by decide)).2⟩

lemma le16_length (n : ℕ) : (le16 n).length = 2 := rfl

lemma le32_length (n : ℕ) : (le32 n).length = 4 := rfl

lemma readLE32_wrap (pre post : List ℕ) (n off : ℕ) (hpre : pre.length = off) :
    readLE32 (pre ++ (le32 n ++ post)) off = n % 4294967296 := by
  unfold readLE32
  have g : ∀ k : ℕ, k < 4 →
      (pre ++ (le32 n ++ post)).getD (off + k) 0 = (le32 n).getD k 0 := by
    intro k hk
    rw [List.getD_append_right _ _ _ _ (by omega)]
    have hidx : off + k - pre.length = k := by omega
    rw [hidx, List.getD_append _ _ _ _ (by rw [le32_length]; omega)]
  have h0 : (pre ++ (le32 n ++ post)).getD off 0 = (le32 n).getD 0 0 := by
    rw [List.getD_append_right _ _ _ _ (by omega)]
    have hidx : off - pre.length = 0 := by omega
    rw [hidx, List.getD_append _ _ _ _ (by rw [le32_length]; omega)]
  rw [h0, g 1 (by omega), g 2 (by omega), g 3 (by omega)]
  show n % 256 + 256 * (n / 256 % 256) + 65536 * (n / 65536 % 256) +
    16777216 * (n / 16777216 % 256) = n % 4294967296
  omega

lemma readLE32_at (pre post : List ℕ) (n off : ℕ) (hpre : pre.length = off)
    (hn : n < 4294967296) :
    readLE32 (pre ++ (le32 n ++ post)) off = n := by
  rw [readLE32_wrap pre post n off hpre]
  exact Nat.mod_eq_of_lt hn

lemma readLE16_at (pre post : List ℕ) (n off : ℕ) (hpre : pre.length = off)
    (hn : n < 65536) :
    readLE16 (pre ++ (le16 n ++ post)) off = n := by
  unfold readLE16
  have h0 : (pre ++ (le16 n ++ post)).getD off 0 = (le16 n).getD 0 0 := by
    rw [List.getD_append_right _ _ _ _ (by omega)]
    have hidx : off - pre.length = 0 := by omega
    rw [hidx, List.getD_append _ _ _ _ (by rw [le16_length]; omega)]
  have h1 : (pre ++ (le16 n ++ post)).getD (off + 1) 0 = (le16 n).getD 1 0 := by
    rw [List.getD_append_right _ _ _ _ (by omega)]
    have hidx : off + 1 - pre.length = 1 := by omega
    rw [hidx, List.getD_append _ _ _ _ (by rw [le16_length]; omega)]
  rw [h0, h1]
  show n % 256 + 256 * (n / 256 % 256) = n
  omega

lemma chunk_at (pre mid post : List ℕ) (off : ℕ) (hpre : pre.length = off)
    (hmid : mid.length = 4) :
    ((pre ++ (mid ++ post)).drop off).take 4 = mid := by
  rw [List.drop_left' hpre, List.take_left' hmid]

lemma createWAVHeader?_eq_some (ns : ℕ) (hsize : 36 + ns * 2 * 2 < 4294967296) :
    createWAVHeader? ns 44100 2 16 = some (createWAVHeader ns 44100 2 16) := by
  have h2 : ns * 2 * 2 < 4294967296 := by omega
  simp [createWAVHeader?, createWAVHeader, writeUInt32LE?, writeUInt16LE?,
    hsize, h2, List.append_assoc]

lemma renderWav_normal (p : MusicParams) (e : ℕ → ℕ → ℝ) (d : ℕ) :
    renderWav p d e =
      ascii "RIFF" ++ (le32 (36 + numSamples d * 2 * 2) ++ (ascii "WAVE" ++
        (ascii "fmt " ++ (le32 16 ++ (le16 1 ++ (le16 2 ++ (le32 44100 ++
          (le32 176400 ++ (le16 4 ++ (le16 16 ++ (ascii "data" ++
            (le32 (numSamples d * 2 * 2) ++
              pcmData p e (numSamples d))))))))))))) := by
  simp [renderWav, createWAVHeader, List.append_assoc]

/-- C1 amended: for every parameter set, entropy stream and positive
duration whose data size keeps the 32-bit header fields in range
(`36 + dataSize < 2^32`, i.e. `duration ≤ 24347` seconds), the header
writes' range checks all pass and the fallback render is exactly a
44-byte header followed by the PCM data with the documented RIFF/WAVE
layout, all multi-byte fields little-endian, and total length
`44 + dataSize` where `dataSize = numSamples * 2 * 2` and
`numSamples = duration * 44100`. -/
theorem c1_header_layout (p : MusicParams) (e : ℕ → ℕ → ℝ) (d : ℕ)
    (_hd : 1 ≤ d) (hsize : 36 + numSamples d * 2 * 2 < 4294967296) :
    renderWav? p d e = some (renderWav p d e) ∧
    (renderWav p d e).length = 44 + numSamples d * 2 * 2 ∧
    numSamples d = d * 44100 ∧
    (renderWav p d e).take 4 = ascii "RIFF" ∧
    readLE32 (renderWav p d e) 4 = 36 + numSamples d * 2 * 2 ∧
    ((renderWav p d e).drop 8).take 4 = ascii "WAVE" ∧
    ((renderWav p d e).drop 12).take 4 = ascii "fmt " ∧
    readLE32 (renderWav p d e) 16 = 16 ∧
    readLE16 (renderWav p d e) 20 = 1 ∧
    readLE16 (renderWav p d e) 22 = 2 ∧
    readLE32 (renderWav p d e) 24 = 44100 ∧
    readLE32 (renderWav p d e) 28 = 44100 * 2 * 2 ∧
    readLE16 (renderWav p d e) 32 = 2 * 2 ∧
    readLE16 (renderWav p d e) 34 = 16 ∧
    ((renderWav p d e).drop 36).take 4 = ascii "data" ∧
    readLE32 (renderWav p d e) 40 = numSamples d * 2 * 2 ∧
    (renderWav p d e).drop 44 = pcmData p e (numSamples d) := by
  refine ⟨?_, ?_, ?_, ?_, ?_, ?_, ?_, ?_, ?_, ?_, ?_, ?_, ?_, ?_, ?_, ?_, ?_⟩
  · unfold renderWav?
    rw [createWAVHeader?_eq_some _ hsize]
    rfl
  · rw [renderWav_length]
    omega
  · unfold numSamples
    omega
  · rw [renderWav_normal]
    exact List.take_left' (by simp [ascii_RIFF])
  · rw [renderWav_normal]
    exact readLE32_at _ _ _ _ (by simp [ascii_RIFF]) hsize
  · rw [renderWav_normal]
    iterate 1 rw [← List.append_assoc]
    exact chunk_at _ _ _ _ (by simp [ascii_RIFF, le32]) (by simp [ascii_WAVE])
  · rw [renderWav_normal]
    iterate 2 rw [← List.append_assoc]
    exact chunk_at _ _ _ _ (by simp [ascii_RIFF, ascii_WAVE, le32]) (by simp [ascii_fmt])
  · rw [renderWav_normal]
    iterate 3 rw [← List.append_assoc]
    exact readLE32_at _ _ _ _
      (by simp [ascii_RIFF, ascii_WAVE, ascii_fmt, le32]) (by norm_num)
  · rw [renderWav_normal]
    iterate 4 rw [← List.append_assoc]
    exact readLE16_at _ _ _ _
      (by simp [ascii_RIFF, ascii_WAVE, ascii_fmt, le32]) (by norm_num)
  · rw [renderWav_normal]
    iterate 5 rw [← List.append_assoc]
    exact readLE16_at _ _ _ _
      (by simp [ascii_RIFF, ascii_WAVE, ascii_fmt, le16, le32]) (by norm_num)
  · rw [renderWav_normal]
    iterate 6 rw [← List.append_assoc]
    exact readLE32_at _ _ _ _
      (by simp [ascii_RIFF, ascii_WAVE, ascii_fmt, le16, le32]) (by norm_num)
  · rw [renderWav_normal]
    iterate 7 rw [← List.append_assoc]
    exact readLE32_at _ _ _ _
      (by simp [ascii_RIFF, ascii_WAVE, ascii_fmt, le16, le32]) (by norm_num)
  · rw [renderWav_normal]
    iterate 8 rw [← List.append_assoc]
    exact readLE16_at _ _ _ _
      (by simp [ascii_RIFF, ascii_WAVE, ascii_fmt, le16, le32]) (by norm_num)
  · rw [renderWav_normal]
    iterate 9 rw [← List.append_assoc]
    exact readLE16_at _ _ _ _
      (by simp [ascii_RIFF, ascii_WAVE, ascii_fmt, le16, le32]) (by norm_num)
  · rw [renderWav_normal]
    iterate 10 rw [← List.append_assoc]
    exact chunk_at _ _ _ _
      (by simp [ascii_RIFF, ascii_WAVE, ascii_fmt, le16, le32]) (by simp [ascii_data])
  · rw [renderWav_normal]
    iterate 11 rw [← List.append_assoc]
    exact readLE32_at _ _ _ _
      (by simp [ascii_RIFF, ascii_WAVE, ascii_fmt, ascii_data, le16, le32]) (by omega)
  · rw [renderWav_normal]
    iterate 12 rw [← List.append_assoc]
    exact List.drop_left'
      (by simp [ascii_RIFF, ascii_WAVE, ascii_fmt, ascii_data, le16, le32])

/-- Witness for C1's amended theorem at the spec §8 scenario (duration 8,
total size `44 + 352800 * 4 = 1411244` bytes). -/
theorem c1_header_layout_witness :
    ((1 : ℕ) ≤ 8 ∧ 36 + numSamples 8 * 2 * 2 < 4294967296) ∧
    renderWav? pScenario 8 eHalf = some (renderWav pScenario 8 eHalf) ∧
    (renderWav pScenario 8 eHalf).length = 44 + numSamples 8 * 2 * 2 ∧
    readLE32 (renderWav pScenario 8 eHalf) 4 = 36 + numSamples 8 * 2 * 2 := by
  have h := c1_header_layout pScenario eHalf 8 (by norm_num)
    (by norm_num [numSamples])
  exact ⟨⟨by norm_num, by norm_num [numSamples]⟩, h.1, h.2.1, h.2.2.2.2.1⟩

/-- C1 counterexample: already at duration 24348 s the file size
`36 + dataSize = 4294987236` exceeds the 32-bit maximum `4294967295`, so
`header.writeUInt32LE(fileSize, 4)` throws `ERR_OUT_OF_RANGE` (modelled
as `none`): the render produces no container at all, refuting the claimed
layout for this positive duration. -/
theorem c1_counterexample : renderWav? pScenario 24348 eHalf = none := by
  unfold renderWav?
  rw [show createWAVHeader? (numSamples 24348) 44100 2 16 = none from by decide]
  rfl

/-- C3 amended: the engine validates neither `tempo > 0` nor
`duration > 0`: for every parameter set (any tempo, including zero or
negative) and every duration whose data size fits the 32-bit header
fields, the render raises no error and returns a container of exactly
`44 + dataSize` bytes starting with `"RIFF"`.  The only failure in
`generateFallbackAudio` is the unrelated `writeUInt32LE` range error when
`duration ≥ 24348` overflows the size fields — a serialization limit, not
a precondition check. -/
theorem c3_no_validation (p : MusicParams) (e : ℕ → ℕ → ℝ) (d : ℕ)
    (hsize : 36 + numSamples d * 2 * 2 < 4294967296) :
    renderWav? p d e = some (renderWav p d e) ∧
    (renderWav p d e).length = 44 + numSamples d * 2 * 2 ∧
    (renderWav p d e).take 4 = ascii "RIFF" := by
  refine ⟨?_, ?_, ?_⟩
  · unfold renderWav?
    rw [createWAVHeader?_eq_some _ hsize]
    rfl
  · rw [renderWav_length]
    omega
  · rw [renderWav_normal]
    exact List.take_left' (by simp [ascii_RIFF])

/-- Witness for C3's amended theorem at `tempo = 0`, duration 1. -/
theorem c3_no_validation_witness :
    (36 + numSamples 1 * 2 * 2 < 4294967296) ∧
    renderWav? pZeroTempo 1 eHalf = some (renderWav pZeroTempo 1 eHalf) := by
  have h := c3_no_validation pZeroTempo eHalf 1 (by norm_num [numSamples])
  exact ⟨by norm_num [numSamples], h.1⟩

/-- C3 counterexample: with `tempo = 0` (violating the documented
`tempo > 0` precondition) and duration 1, the render does not fail fast:
no error is raised and it still produces a full 176444-byte RIFF
container. -/
theorem c3_counterexample :
    pZeroTempo.tempo ≤ 0 ∧
    renderWav? pZeroTempo 1 eHalf = some (renderWav pZeroTempo 1 eHalf) ∧
    (renderWav pZeroTempo 1 eHalf).length = 176444 ∧
    (renderWav pZeroTempo 1 eHalf).take 4 = ascii "RIFF" := by
  refine ⟨by norm_num [pZeroTempo], ?_, ?_, ?_⟩
  · unfold renderWav?
    rw [createWAVHeader?_eq_some _ (by norm_num [numSamples])]
    rfl
  · rw [renderWav_length]
    norm_num [numSamples]
  · rw [renderWav_normal]
    exact List.take_left' (by simp [ascii_RIFF])

lemma det_t : tOf 132300 = 3 := by
  unfold tOf
  norm_num

lemma det_bps : beatsPerSecond pDet = 1 := by
  unfold beatsPerSecond
  norm_num [pDet]

lemma det_beatNumber : beatNumber pDet 132300 = 3 := by
  unfold beatNumber
  rw [det_t, det_bps, show (3 : ℝ) * 1 = ((3 : ℤ) : ℝ) by norm_num, Int.floor_intCast]

lemma det_beatPhase : beatPhase pDet 132300 = 0 := by
  unfold beatPhase
  rw [det_t, det_bps, show (3 : ℝ) * 1 = ((3 : ℤ) : ℝ) by norm_num, jsMod_one_intCast]

lemma det_barNumber : barNumber pDet 132300 = 0 := by
  unfold barNumber
  rw [det_beatNumber]
  have h : ⌊((3 : ℤ) : ℝ) / 4⌋ = 0 := by
    apply Int.floor_eq_iff.mpr
    constructor <;> norm_num
  rw [h]
  decide

lemma det_beatInBar : beatInBar pDet 132300 = 3 := by
  unfold beatInBar
  rw [det_beatNumber]
  decide

lemma det_chordRoot : chordRoot pDet 132300 = 0 := by
  unfold chordRoot
  rw [det_barNumber]
  decide

lemma det_root_A : ((getFrequencyFromKey pDet.key : ℚ) : ℝ) = 220 := by
  have h : getFrequencyFromKey pDet.key = (220.00 : ℚ) := rfl
  rw [h]
  norm_num

lemma det_scale_getD0 : (scaleOf pDet).getD 0 0 = 220 := by
  unfold scaleOf
  rw [getScaleFrequencies_getD _ _ (show (0 : ℕ) < 7 by omega)]
  have h0 : (scaleIntervals pDet.scale).getD 0 0 = 0 := by decide
  rw [h0, det_root_A]
  norm_num

lemma det_kick : kickVal pDet 132300 = 0 := by
  simp only [kickVal]
  rw [det_beatPhase, det_t, if_pos (show (0 : ℝ) < 0.15 by norm_num)]
  have hpitch : (150 : ℝ) * Real.exp (-(0 : ℝ) * 40) + 40 = 190 := by
    norm_num [Real.exp_zero]
  rw [hpitch]
  have hs : Real.sin (2 * π * 190 * 3) = 0 := by
    rw [show (2 : ℝ) * π * 190 * 3 = ((1140 : ℤ) : ℝ) * π by push_cast; ring]
    exact Real.sin_int_mul_pi 1140
  rw [hs]
  ring

lemma det_snare (e : ℕ → ℕ → ℝ) :
    snareVal pDet e 132300 = (e 132300 0 * 2 - 1) * 0.3 := by
  simp only [snareVal]
  rw [det_beatInBar, det_beatPhase, det_t,
    if_pos (show ((3 : ℤ) = 1 ∨ (3 : ℤ) = 3) ∧ (0 : ℝ) < 0.1 by
      exact ⟨Or.inr rfl, by norm_num⟩)]
  have henv : Real.exp (-(0 : ℝ) * 25) = 1 := by norm_num [Real.exp_zero]
  have hs : Real.sin (2 * π * 200 * 3) = 0 := by
    rw [show (2 : ℝ) * π * 200 * 3 = ((1200 : ℤ) : ℝ) * π by push_cast; ring]
    exact Real.sin_int_mul_pi 1200
  rw [henv, hs]
  have hdd : pDet.drumDensity = 1 := rfl
  rw [hdd]
  ring

lemma det_hihat (e : ℕ → ℕ → ℝ) : hihatVal pDet e 132300 = 0 := by
  simp only [hihatVal]
  have hb : pDet.brightness = 0 := rfl
  rw [hb]
  simp

lemma det_bass : bassVal pDet 132300 = -0.15 := by
  simp only [bassVal]
  rw [det_beatPhase, det_t, det_chordRoot, det_scale_getD0,
    if_pos (show (0 : ℝ) < 0.5 by norm_num)]
  have hm : jsMod ((3 : ℝ) * (220 * 0.5)) 1 = 0 := by
    rw [show (3 : ℝ) * (220 * 0.5) = ((330 : ℤ) : ℝ) by norm_num]
    exact jsMod_one_intCast 330
  have hs : Real.sin (2 * π * (220 * 0.5) * 0.5 * 3) = 0 := by
    rw [show (2 : ℝ) * π * (220 * 0.5) * 0.5 * 3 = ((330 : ℤ) : ℝ) * π by push_cast; ring]
    exact Real.sin_int_mul_pi 330
  rw [hm, hs]
  have hint : pDet.intensity = 0 := rfl
  rw [hint]
  ring

lemma det_pad : padVal pDet 132300 = 0 := by
  simp only [padVal]
  have hb : pDet.brightness = 0 := rfl
  rw [hb]
  ring

lemma det_pluck : pluckVal pDet 132300 = 0 := by
  simp only [pluckVal]
  split
  · have hb : pDet.brightness = 0 := rfl
    rw [hb]
    ring
  · rfl

lemma det_bell : bellVal pDet 132300 = 0 := by
  simp only [bellVal]
  have hb : pDet.brightness = 0 := rfl
  rw [hb]
  simp

lemma det_arp : arpVal pDet 132300 = 0 := by
  simp only [arpVal]
  have hb : pDet.brightness = 0 := rfl
  rw [hb]
  ring

lemma det_acid : acidVal pDet 132300 = 0 := by
  simp only [acidVal]
  split
  · have hint : pDet.intensity = 0 := rfl
    rw [hint]
    ring
  · rfl

lemma det_vowel : vowelVal pDet 132300 = 0 := by
  simp only [vowelVal]
  split
  · have hb : pDet.brightness = 0 := rfl
    rw [hb]
    ring
  · rfl

lemma det_summed (e : ℕ → ℕ → ℝ) :
    summedSample pDet e 132300 = (e 132300 0 * 2 - 1) * 0.3 - 0.15 := by
  unfold summedSample
  rw [det_kick, det_snare, det_hihat, det_bass, det_pad, det_pluck, det_bell,
    det_arp, det_acid, det_vowel]
  ring

lemma pcm16_zero : pcm16 0 = 0 := by
  unfold pcm16 clampPM1
  rw [min_eq_right (by norm_num : (0 : ℝ) ≤ 1),
    max_eq_right (by norm_num : (-1 : ℝ) ≤ 0)]
  norm_num

lemma pcm16_neg {x : ℝ} (h : x < 0) : pcm16 x < 0 := by
  unfold pcm16
  have hc : clampPM1 x < 0 := by
    unfold clampPM1
    rw [min_eq_right (le_of_lt (lt_trans h one_pos))]
    exact max_lt (by norm_num) h
  apply Int.floor_lt.mpr
  push_cast
  nlinarith

lemma det_leftInt_threeQ : leftInt pDet eThreeQuarters 132300 = 0 := by
  have hsum : summedSample pDet eThreeQuarters 132300 = 0 := by
    rw [det_summed]
    norm_num [eThreeQuarters]
  unfold leftInt leftSample masterSample
  rw [hsum]
  rw [show (0 : ℝ) * 1.5 = 0 by norm_num, Real.tanh_zero]
  rw [show (0 : ℝ) * 0.8 * (1 + stereoPhase 132300) = 0 by ring]
  exact pcm16_zero

lemma det_leftInt_half_neg : leftInt pDet eHalf 132300 < 0 := by
  have hsum : summedSample pDet eHalf 132300 = -0.15 := by
    rw [det_summed]
    norm_num [eHalf]
  have hm : masterSample pDet eHalf 132300 < 0 := by
    unfold masterSample
    rw [hsum, show (-0.15 : ℝ) * 1.5 = -0.225 by norm_num]
    have ht := tanh_neg_of_neg (show (-0.225 : ℝ) < 0 by norm_num)
    nlinarith
  have hl : leftSample pDet eHalf 132300 < 0 := by
    unfold leftSample stereoPhase
    have hsp := Real.neg_one_le_sin (tOf 132300 * 0.5)
    exact mul_neg_of_neg_of_pos hm (by nlinarith)
  exact pcm16_neg hl

lemma highByte_ne {v : ℤ} (h1 : -32768 ≤ v) (h2 : v < 0) :
    toUInt16 v / 256 ≠ 0 := by
  unfold toUInt16
  omega

lemma renderWav_getD_data (p : MusicParams) (e : ℕ → ℕ → ℝ) (d i j : ℕ)
    (hi : i < numSamples d) (hj : j < 4) :
    (renderWav p d e).getD (44 + (4 * i + j)) 0 = (sampleBytes p e i).getD j 0 := by
  unfold renderWav
  rw [List.getD_append_right _ _ _ _ (by rw [createWAVHeader_length]; omega)]
  have hidx : 44 + (4 * i + j) - (createWAVHeader (numSamples d) 44100 2 16).length =
      4 * i + j := by
    rw [createWAVHeader_length]
    omega
  rw [hidx, pcmData_getD p e hi hj]

/-- C2 counterexample: the render is not a function of `(MusicParams,
duration, sampleRate, seed)`: it reads the ambient global `Math.random()`
stream (no seed parameter exists), and two renders with identical inputs
but different ambient streams produce different containers.  With key A
major, stable trend, tempo 60, `brightness = 0`, `drumDensity = 1`, the
snare noise read at sample 132300 (`t = 3` s, beat 4 of bar 1) changes the
emitted byte at offset 529245. -/
theorem c2_counterexample :
    renderWav pDet 4 eHalf ≠ renderWav pDet 4 eThreeQuarters := by
  intro hEq
  have h1 : (renderWav pDet 4 eHalf).getD 529245 0 =
      toUInt16 (leftInt pDet eHalf 132300) / 256 := by
    have h := renderWav_getD_data pDet eHalf 4 132300 1
      (by norm_num [numSamples]) (by norm_num)
    rw [show 44 + (4 * 132300 + 1) = 529245 by norm_num] at h
    rw [h, sampleBytes_getD_one]
  have h2 : (renderWav pDet 4 eThreeQuarters).getD 529245 0 = 0 := by
    have h := renderWav_getD_data pDet eThreeQuarters 4 132300 1
      (by norm_num [numSamples]) (by norm_num)
    rw [show 44 + (4 * 132300 + 1) = 529245 by norm_num] at h
    rw [h, sampleBytes_getD_one, det_leftInt_threeQ]
    rfl
  rw [hEq, h2] at h1
  exact highByte_ne (le_pcm16 _) det_leftInt_half_neg h1.symm

/-- C2 amended: the engine's only entropy reads are the snare and hi-hat
noise, both scaled by `drumDensity`; renders are deterministic relative to
the ambient stream, and whenever `drumDensity = 0` the output container is
byte-identical across arbitrary ambient streams. -/
theorem c2_stream_dependence (p : MusicParams) (e₁ e₂ : ℕ → ℕ → ℝ) (d : ℕ)
    (h : p.drumDensity = 0) : renderWav p d e₁ = renderWav p d e₂ := by
  have hsn : ∀ i, snareVal p e₁ i = snareVal p e₂ i := by
    intro i
    unfold snareVal
    by_cases hc : (beatInBar p i = 1 ∨ beatInBar p i = 3) ∧ beatPhase p i < 0.1
    · rw [if_pos hc, if_pos hc, h]
      ring
    · rw [if_neg hc, if_neg hc]
  have hh : ∀ i, hihatVal p e₁ i = hihatVal p e₂ i := by
    intro i
    unfold hihatVal
    rw [h]
    by_cases hc : jsMod (tOf i * beatsPerSecond p *
        (if p.energyScore > 0.6 then (4 : ℝ) else 2)) 1 < 0.05
    · rw [if_pos hc, if_pos hc]
      ring
    · rw [if_neg hc, if_neg hc]
  have hsum : ∀ i, summedSample p e₁ i = summedSample p e₂ i := by
    intro i
    unfold summedSample
    rw [hsn i, hh i]
  have hbytes : ∀ i, sampleBytes p e₁ i = sampleBytes p e₂ i := by
    intro i
    unfold sampleBytes leftInt rightInt leftSample rightSample masterSample
    rw [hsum i]
  have hpcm : ∀ n, pcmData p e₁ n = pcmData p e₂ n := by
    intro n
    induction n with
    | zero => rfl
    | succ m ih =>
      unfold pcmData
      rw [ih, hbytes m]
  unfold renderWav
  rw [hpcm]

/-- Witness for C2's amended theorem: with `drumDensity = 0` two distinct
ambient streams give byte-identical renders. -/
theorem c2_stream_dependence_witness :
    pNoDrums.drumDensity = 0 ∧
    renderWav pNoDrums 1 eHalf = renderWav pNoDrums 1 eZero :=
  ⟨rfl, c2_stream_dependence pNoDrums eHalf eZero 1 rfl⟩

end WaveAI
